import Mathlib

/-
Verification of the Scrapple resource-arbitration and session-orchestration
core (backend/services/cv_video_service.py, backend/services/lerobot_bridge.py,
backend/services/voice_service.py, backend/routes/voice.py, backend/routes/arm.py)
against its natural-language specification.

The Python code is shallowly embedded: each service's mutable object state
becomes an explicit state record, each method a pure function from state to
result-and-state, and nondeterministic environment outcomes (process launch
success, file-write success, Gemini call outcomes, process-kill behaviour)
become explicit parameters.
-/

namespace Scrapple

/-! ## Configuration (backend/config.py) -/

namespace Config

/-- `Config.GEMINI_MAX_RETRIES = 3` in backend/config.py. -/
def GEMINI_MAX_RETRIES : Nat := 3

/-- `Config.GEMINI_RETRY_DELAY = 10` seconds in backend/config.py. -/
def GEMINI_RETRY_DELAY : Nat := 10

end Config

/-! ## Decision (the structured outcome of one Gemini evaluation) -/

/-- The `{"valid": bool, "target": str|None, "reason": str}` dict returned by
`VoiceService.process_command`. -/
structure Decision where
  valid : Bool
  target : Option String
  reason : String
deriving Repr, DecidableEq

/-- Python truthiness of an optional string: `None` and `""` are falsy. -/
def strTruthy : Option String → Bool
  | none => false
  | some t => if t = "" then false else true

/-! ## Camera Arbiter (CVVideoService, backend/services/cv_video_service.py)

State relevant to pause/resume: the shared `_paused` flag, the two capture
handles `_cap` / `_cap_2` (modelled as a Boolean "handle currently open"),
and the two frozen frames (frames abstracted as natural numbers). -/

/-- Mutable state of `CVVideoService` touched by `pause`/`resume`. -/
structure CVVideoState where
  paused : Bool
  cap : Bool
  cap2 : Bool
  frozenFrame : Option Nat
  frozenFrame2 : Option Nat
deriving Repr, DecidableEq

/-- State right after `CVVideoService.__init__`: not paused, no handles open,
no frozen frames. -/
def initCVVideo : CVVideoState :=
  { paused := false, cap := false, cap2 := false,
    frozenFrame := none, frozenFrame2 := none }

/-- `CVVideoService.is_paused`. -/
def CVVideoState.is_paused (s : CVVideoState) : Bool := s.paused

/-- `CVVideoService.pause`: if already paused return True; otherwise set the
paused flag, release both capture handles (release errors are swallowed) and
return True.  The frozen frames are retained. -/
def pause (s : CVVideoState) : Bool × CVVideoState :=
  if s.paused then (true, s)
  else (true, { s with paused := true, cap := false, cap2 := false })

/-- `CVVideoService.resume`: if not paused return True; otherwise clear the
paused flag and drop the front frozen frame (`_frozen_frame = None`; the
handeye frozen frame is left as is) and return True.  Handles are reopened
lazily by the stream loop, not here. -/
def resume (s : CVVideoState) : Bool × CVVideoState :=
  if s.paused then (true, { s with paused := false, frozenFrame := none })
  else (true, s)

/-- One call of the pause/resume API, for reasoning about call sequences. -/
inductive CamCall where
  | pauseCall
  | resumeCall
deriving Repr, DecidableEq

/-- Execute one `CamCall` against the camera state. -/
def applyCall (c : CamCall) (s : CVVideoState) : Bool × CVVideoState :=
  match c with
  | .pauseCall => pause s
  | .resumeCall => resume s

/-- Execute a sequence of pause/resume calls left to right. -/
def applyCalls (cs : List CamCall) (s : CVVideoState) : CVVideoState :=
  match cs with
  | [] => s
  | c :: rest => applyCalls rest (applyCall c s).2

/-- The specification-level fold of a call sequence over the paused flag:
true after a trailing pause, false after a trailing resume. -/
def foldPaused (cs : List CamCall) (b : Bool) : Bool :=
  match cs with
  | [] => b
  | .pauseCall :: rest => foldPaused rest true
  | .resumeCall :: rest => foldPaused rest false

/-! ## Process Bridge (LeRobotBridge, backend/services/lerobot_bridge.py) -/

/-- A spawned `subprocess.Popen` handle: pid, the time it was started, and the
result of `poll()` (`none` while the process is alive, `some code` after
exit). -/
structure Proc where
  pid : Nat
  startTime : Nat
  exitCode : Option Int
deriving Repr, DecidableEq

/-- Mutable state of `LeRobotBridge`: `_process`, `_last_target`, the contents
of the `lerobot_command.txt` command file, and the `_running` attribute that
the `/api/lerobot/run` route sets directly on the bridge object. -/
structure BridgeState where
  process : Option Proc
  lastTarget : Option String
  commandFile : Option String
  runningFlag : Bool
deriving Repr, DecidableEq

/-- Bridge state right after construction. -/
def initBridge : BridgeState :=
  { process := none, lastTarget := none, commandFile := none, runningFlag := false }

/-- `LeRobotBridge.is_running`: the process object exists and `poll()` is
`None`. -/
def is_running (s : BridgeState) : Bool :=
  match s.process with
  | some p => p.exitCode.isNone
  | none => false

/-- `LeRobotBridge.start_recording_session`: if a live process already exists
(`_process is not None and _process.poll() is None`) it prints
"Recording session already running" and returns True without touching
anything.  Otherwise it launches the built command; `launch = some p` models a
successful `Popen` giving process `p`, `launch = none` models `Popen`
raising, in which case `_process` keeps its previous value and False is
returned. -/
def start_recording_session (launch : Option Proc) (s : BridgeState) :
    Bool × BridgeState :=
  if is_running s then (true, s)
  else
    match launch with
    | some p => (true, { s with process := some p })
    | none => (false, s)

/-- `LeRobotBridge.send_enter`: with no live process, return False; otherwise
write a newline to the process stdin (`writeOk` models whether the stdin
write succeeds; a raised write error is caught and reported as False).  The
bridge state is unchanged either way. -/
def send_enter (writeOk : Bool) (s : BridgeState) : Bool × BridgeState :=
  if is_running s then (writeOk, s) else (false, s)

/-- `LeRobotBridge.set_target`: always records `_last_target`; then writes
`TARGET=...` to the command file, swallowing write failures (`fileWriteOk`
models whether the write succeeds). -/
def set_target (fileWriteOk : Bool) (t : String) (s : BridgeState) : BridgeState :=
  match fileWriteOk with
  | true => { s with lastTarget := some t, commandFile := some t }
  | false => { s with lastTarget := some t }

/-- How the environment behaves during `stop_session`'s shutdown attempt on a
live process. -/
inductive StopBehavior where
  /-- stdin close, `terminate()` and `wait(timeout=5)` all succeed. -/
  | gracefulOk
  /-- `wait` raises `TimeoutExpired` and the escalation `kill()` succeeds. -/
  | timeoutKillOk
  /-- `wait` raises `TimeoutExpired` and the escalation `kill()` itself
  raises. -/
  | timeoutKillRaises
  /-- some other exception is raised and caught by the generic handler. -/
  | otherError
deriving Repr, DecidableEq

/-- `LeRobotBridge.stop_session`.  With no process, returns False (state
unchanged).  With an already-exited process the shutdown block is skipped and
the handle is cleared.  With a live process the shutdown is attempted: in the
`timeoutKillRaises` case the `kill()` call sits inside the
`except TimeoutExpired` handler with no surrounding protection, so its
exception propagates out of the method before `self._process = None` runs —
modelled as `Except.error` carrying the state at the point of the raise. -/
def stop_session (b : StopBehavior) (s : BridgeState) :
    Except (String × BridgeState) (Bool × BridgeState) :=
  match s.process with
  | none => .ok (false, s)
  | some p =>
    match p.exitCode with
    | some _ => .ok (true, { s with process := none })
    | none =>
      match b with
      | .timeoutKillRaises => .error ("kill raised", s)
      | _ => .ok (true, { s with process := none })

/-! ## Combined system state (bridge + camera singletons) -/

/-- The two module-level singletons `lerobot_bridge` and `cv_video_service`
seen by the routes. -/
structure SystemState where
  bridge : BridgeState
  cam : CVVideoState
deriving Repr, DecidableEq

/-- Observable side effects of a dispatch, in program order. -/
inductive Event where
  | setTargetEv (t : String)
  | sleepEv
  | sendEnterEv
  | pauseEv
  | resumeEv
deriving Repr, DecidableEq

/-- `run_lerobot_commands(target)` in backend/services/lerobot_bridge.py, the
dispatch entry point called by the voice routes after a valid decision.  A
falsy target (`None` or empty) returns immediately.  Otherwise it calls
`set_target`, and, only when a session is already running, sleeps 0.5 s and
sends Enter; when idle it merely logs that the target was saved.  It never
touches the camera service.  Returns the new state and the event trace. -/
def run_lerobot_commands (fileWriteOk enterOk : Bool) (target : Option String)
    (s : SystemState) : SystemState × List Event :=
  match target with
  | none => (s, [])
  | some t =>
    if t = "" then (s, [])
    else
      let b1 := set_target fileWriteOk t s.bridge
      if is_running b1 then
        let r := send_enter enterOk b1
        (⟨r.2, s.cam⟩, [Event.setTargetEv t, Event.sleepEv, Event.sendEnterEv])
      else
        (⟨b1, s.cam⟩, [Event.setTargetEv t])

/-- The `POST /api/lerobot/start` route (`lerobot_start` in
backend/routes/arm.py): it forwards to `start_recording_session` and builds
an HTTP response; it performs no camera operation at all. -/
def lerobot_start (launch : Option Proc) (s : SystemState) : Bool × SystemState :=
  let r := start_recording_session launch s.bridge
  (r.1, ⟨r.2, s.cam⟩)

/-- The `POST /api/lerobot/run` route (`lerobot_run` in backend/routes/arm.py):
pauses the video service first, sleeps 0.5 s, then writes the trigger file
(`writeTriggerOk` models whether that write succeeds).  On success it sets the
bridge's `_running` attribute and `_last_target = "nut"`; on failure it
resumes the video service before returning the error response. -/
def lerobot_run (writeTriggerOk : Bool) (s : SystemState) : Bool × SystemState :=
  let cam1 := (pause s.cam).2
  match writeTriggerOk with
  | true =>
    (true, ⟨{ s.bridge with runningFlag := true, lastTarget := some "nut" }, cam1⟩)
  | false =>
    (false, ⟨s.bridge, (resume cam1).2⟩)

/-! ## Intent Evaluator retry loop (VoiceService.process_command,
backend/services/voice_service.py) -/

/-- The parsed JSON object returned by a successful Gemini call, before the
`setdefault` schema repair: each of the three fields may be missing. -/
structure RawResult where
  validField : Option Bool
  targetField : Option (Option String)
  reasonField : Option String
deriving Repr, DecidableEq

/-- The three `result.setdefault(...)` lines of `process_command`. -/
def applyDefaults (r : RawResult) : Decision :=
  { valid := r.validField.getD false,
    target := r.targetField.getD none,
    reason := r.reasonField.getD "No reason provided." }

/-- Outcome of one `generate_content` + `json.loads` attempt:
a parsed JSON result, a `json.JSONDecodeError`, an exception whose text
contains "429"/"503" (retriable), or any other exception (non-retriable). -/
inductive GeminiOutcome where
  | ok (raw : RawResult)
  | nonJson
  | retriable
  | fatal
deriving Repr, DecidableEq

/-- `fallback_invalid` in `process_command`. -/
def fallback_invalid : Decision :=
  { valid := false, target := none, reason := "Cannot evaluate." }

/-- Result of running the evaluation: the decision returned, the list of
backoff sleeps performed (in seconds, in order), and the number of Gemini
attempts made. -/
structure EvalRun where
  decision : Decision
  sleeps : List Nat
  attempts : Nat
deriving Repr, DecidableEq

/-- The `for attempt in range(1, GEMINI_MAX_RETRIES + 1)` loop of
`process_command`.  `fuel` is the number of loop iterations remaining
(initially `GEMINI_MAX_RETRIES`); the fuel-exhausted case is the trailing
`return fallback_invalid` after the loop.  A retriable failure sleeps
`GEMINI_RETRY_DELAY * 2^(attempt-1)` and continues only while
`attempt < GEMINI_MAX_RETRIES`; on the last attempt it returns the fallback.
Non-JSON output and non-retriable exceptions return the fallback at once. -/
def attemptLoop (oracle : Nat → GeminiOutcome) (maxRetries base : Nat) :
    Nat → Nat → EvalRun
  | 0, _ => ⟨fallback_invalid, [], 0⟩
  | fuel + 1, attempt =>
    match oracle attempt with
    | .ok raw => ⟨applyDefaults raw, [], 1⟩
    | .nonJson => ⟨fallback_invalid, [], 1⟩
    | .fatal => ⟨fallback_invalid, [], 1⟩
    | .retriable =>
      if attempt < maxRetries then
        let rest := attemptLoop oracle maxRetries base fuel (attempt + 1)
        ⟨rest.decision, base * 2 ^ (attempt - 1) :: rest.sleeps, rest.attempts + 1⟩
      else ⟨fallback_invalid, [], 1⟩

/-- `VoiceService.process_command(command_text, visible_objects)`: with no
Gemini client or an empty command text it returns `fallback_invalid` without
any attempt; otherwise it runs the attempt loop.  `oracle n` is the outcome
of the n-th Gemini attempt; `visibleObjects` only feeds the prompt text. -/
def process_command (hasClient : Bool) (oracle : Nat → GeminiOutcome)
    (commandText : String) (_visibleObjects : List String) : EvalRun :=
  match hasClient with
  | false => ⟨fallback_invalid, [], 0⟩
  | true =>
    if commandText = "" then ⟨fallback_invalid, [], 0⟩
    else
      attemptLoop oracle Config.GEMINI_MAX_RETRIES Config.GEMINI_RETRY_DELAY
        Config.GEMINI_MAX_RETRIES 1

/-! ## Voice turn route (trigger_voice_listen, backend/routes/voice.py) -/

/-- The JSON body returned by `POST /api/voice/listen`. -/
structure RouteResult where
  command : Option String
  decision : Decision
  ttsResult : String
deriving Repr, DecidableEq

/-- How Python renders an optional target inside the confirmation f-string. -/
def targetText : Option String → String
  | some t => t
  | none => "None"

/-- The dispatch guard `decision.get("valid") and decision.get("target")`:
valid must be true and the target a non-empty string. -/
def dispatchGate (d : Decision) : Bool := d.valid && strTruthy d.target

/-- Everything observable about one run of the voice-listen route: the HTTP
body, the final system state, how many evaluator calls were made, and the
dispatch event trace. -/
structure VoiceTurn where
  result : RouteResult
  state : SystemState
  evalCalls : Nat
  trace : List Event
deriving Repr, DecidableEq

/-- `trigger_voice_listen` in backend/routes/voice.py, starting after the
announce and listen steps: `commandText` is what `voice_service.listen`
returned.  An empty transcript short-circuits with
`{"valid": False, "target": None, "reason": "No audio/text detected."}` and
the spoken text "No command detected.", never calling the evaluator.
Otherwise the evaluator runs once, the result utterance is spoken, and, when
the decision is valid with a truthy target, `run_lerobot_commands` is
invoked. -/
def trigger_voice_listen (fileWriteOk enterOk : Bool) (vis : List String)
    (evaluate : String → List String → Decision) (commandText : String)
    (s : SystemState) : VoiceTurn :=
  if commandText = "" then
    { result := { command := none,
                  decision := { valid := false, target := none,
                                reason := "No audio/text detected." },
                  ttsResult := "No command detected." },
      state := s, evalCalls := 0, trace := [] }
  else
    let d := evaluate commandText vis
    let tts :=
      if d.valid then "Confirmed. Locking on to target: " ++ targetText d.target ++ "."
      else "Negative. " ++ d.reason
    let disp :=
      if dispatchGate d then run_lerobot_commands fileWriteOk enterOk d.target s
      else (s, [])
    { result := { command := some commandText, decision := d, ttsResult := tts },
      state := disp.1, evalCalls := 1, trace := disp.2 }

/-! ## Concrete fixture states used by counterexamples and witnesses -/

/-- A live process handle (poll() = None). -/
def procLive : Proc := { pid := 42, startTime := 1000, exitCode := none }

/-- A fresh process handle produced by a successful launch. -/
def procNew : Proc := { pid := 7, startTime := 500, exitCode := none }

/-- Bridge with a live session. -/
def bridgeRunning : BridgeState :=
  { process := some procLive, lastTarget := none, commandFile := none,
    runningFlag := false }

/-- Camera service streaming normally: unpaused with both handles open. -/
def camOpenUnpaused : CVVideoState :=
  { paused := false, cap := true, cap2 := true,
    frozenFrame := some 7, frozenFrame2 := some 8 }

/-- Idle bridge, camera streaming with the front handle open. -/
def sysIdleLive : SystemState :=
  { bridge := initBridge,
    cam := { paused := false, cap := true, cap2 := false,
             frozenFrame := none, frozenFrame2 := none } }

/-- Running bridge, camera streaming with both handles open. -/
def sysRunningOpen : SystemState :=
  { bridge := bridgeRunning, cam := camOpenUnpaused }

/-! ## Helper lemmas -/

/-- `set_target` only touches `_last_target` and the command file, so it
preserves `is_running`. -/
theorem is_running_set_target (f : Bool) (t : String) (b : BridgeState) :
    is_running (set_target f t b) = is_running b := by
  cases f <;> rfl

/-- `send_enter` never mutates the bridge state. -/
theorem send_enter_state (ok : Bool) (b : BridgeState) :
    (send_enter ok b).2 = b := by
  unfold send_enter
  split <;> rfl

/-- `set_target` always records the commanded target. -/
theorem set_target_lastTarget (f : Bool) (t : String) (b : BridgeState) :
    (set_target f t b).lastTarget = some t := by
  cases f <;> rfl

/-- After `pause` the paused flag is set. -/
theorem pause_paused (s : CVVideoState) : ((pause s).2).paused = true := by
  unfold pause
  split
  next h => exact h
  next => rfl

/-- After `resume` the paused flag is cleared. -/
theorem resume_paused (s : CVVideoState) : ((resume s).2).paused = false := by
  unfold resume
  split
  next => rfl
  next h => simpa using h

/-- Every pause/resume call reports success. -/
theorem applyCall_fst (c : CamCall) (s : CVVideoState) : (applyCall c s).1 = true := by
  cases c with
  | pauseCall =>
    show (pause s).1 = true
    unfold pause
    split <;> rfl
  | resumeCall =>
    show (resume s).1 = true
    unfold resume
    split <;> rfl

/-- The paused flag after a call sequence is the fold of the sequence over the
starting flag. -/
theorem applyCalls_paused (cs : List CamCall) (s : CVVideoState) :
    (applyCalls cs s).paused = foldPaused cs s.paused := by
  induction cs generalizing s with
  | nil => rfl
  | cons c rest ih =>
    cases c with
    | pauseCall =>
      show (applyCalls rest (pause s).2).paused = foldPaused rest true
      rw [ih, pause_paused]
    | resumeCall =>
      show (applyCalls rest (resume s).2).paused = foldPaused rest false
      rw [ih, resume_paused]

/-- A second consecutive identical pause/resume call is a successful no-op. -/
theorem applyCall_idem (c : CamCall) (s : CVVideoState) :
    applyCall c (applyCall c s).2 = (true, (applyCall c s).2) := by
  cases c with
  | pauseCall =>
    show pause (pause s).2 = (true, (pause s).2)
    unfold pause
    split
    next h => simp [h]
    next h => simp
  | resumeCall =>
    show resume (resume s).2 = (true, (resume s).2)
    unfold resume
    split
    next h => simp
    next h => simp [h]

/-! ## Claim theorems -/

/-- C1 (counterexample): the claimed invariant "Running implies every
configured camera channel paused" is false: from an idle bridge and an
unpaused streaming camera, a successful `POST /api/lerobot/start` yields a
state where `is_running()` is true while the camera service reports
`is_paused() = false`. -/
theorem c1_counterexample :
    is_running (lerobot_start (some procNew) sysIdleLive).2.bridge = true ∧
    CVVideoState.is_paused (lerobot_start (some procNew) sysIdleLive).2.cam = false :=
  ⟨rfl, rfl⟩

/-- C1 (amended): the start route leaves the camera service's state, in
particular its paused flag, entirely unchanged; the code never establishes
the paused-while-running invariant on the start path, so a running session
with an unpaused camera is reachable. -/
theorem c1_amended_thm (launch : Option Proc) (s : SystemState) :
    (lerobot_start launch s).2.cam = s.cam := rfl

/-- C2 (counterexample): dispatching the valid decision target "nut" while a
session is running and the camera service is unpaused with both capture
handles open performs no pause at all and sends the confirmation Enter while
the front capture handle is still open, contradicting the claimed
pause-then-settle-then-start/confirm ordering. -/
theorem c2_counterexample :
    (run_lerobot_commands true true (some "nut") sysRunningOpen).2 =
      [Event.setTargetEv "nut", Event.sleepEv, Event.sendEnterEv] ∧
    Event.pauseEv ∉ (run_lerobot_commands true true (some "nut") sysRunningOpen).2 ∧
    (run_lerobot_commands true true (some "nut") sysRunningOpen).1.cam.cap = true ∧
    sysRunningOpen.cam.cap = true ∧
    is_running sysRunningOpen.bridge = true := by
  refine ⟨rfl, ?_, rfl, rfl, rfl⟩
  decide

/-- C2 (amended): on dispatch of a non-empty target the orchestrator records
the target, and only when the bridge already reports a running session it
waits 0.5 s and sends a confirmation; it never pauses the camera (the camera
state is untouched, so the confirmation can be issued while a capture handle
is open) and never starts a session when the bridge is idle. -/
theorem c2_amended_thm (fWk eOk : Bool) (t : String) (s : SystemState)
    (h : t ≠ "") :
    (run_lerobot_commands fWk eOk (some t) s).1.cam = s.cam ∧
    (run_lerobot_commands fWk eOk (some t) s).1.bridge.lastTarget = some t ∧
    (run_lerobot_commands fWk eOk (some t) s).2 =
      (if is_running s.bridge then
        [Event.setTargetEv t, Event.sleepEv, Event.sendEnterEv]
       else [Event.setTargetEv t]) ∧
    Event.pauseEv ∉ (run_lerobot_commands fWk eOk (some t) s).2 := by
  have hrun := is_running_set_target fWk t s.bridge
  cases hr : is_running s.bridge with
  | true =>
    simp [run_lerobot_commands, h, hrun, hr, send_enter_state, set_target_lastTarget]
  | false =>
    simp [run_lerobot_commands, h, hrun, hr, set_target_lastTarget]

/-- C2 (witness): the amended statement evaluated at the concrete
running-and-open state with target "nut". -/
theorem c2_amended_witness :
    ("nut" ≠ "") ∧
    ((run_lerobot_commands true true (some "nut") sysRunningOpen).1.cam =
        sysRunningOpen.cam ∧
      (run_lerobot_commands true true (some "nut") sysRunningOpen).1.bridge.lastTarget =
        some "nut" ∧
      (run_lerobot_commands true true (some "nut") sysRunningOpen).2 =
        (if is_running sysRunningOpen.bridge then
          [Event.setTargetEv "nut", Event.sleepEv, Event.sendEnterEv]
         else [Event.setTargetEv "nut"]) ∧
      Event.pauseEv ∉ (run_lerobot_commands true true (some "nut") sysRunningOpen).2) :=
  ⟨by decide, c2_amended_thm true true "nut" sysRunningOpen (by decide)⟩

/-- C3 (counterexample): calling `start_recording_session` while a session is
already running reports success (returns True), so the claim that it fails
with an AlreadyRunning error is false. -/
theorem c3_counterexample :
    is_running bridgeRunning = true ∧
    (start_recording_session (some procNew) bridgeRunning).1 = true :=
  ⟨rfl, rfl⟩

/-- C3 (amended): calling the start operation while a session is already
running returns success (True) as a no-op: it launches nothing and leaves the
whole bridge state — including the existing session's process handle and
start timestamp — unchanged. -/
theorem c3_amended_thm (launch : Option Proc) (s : BridgeState)
    (h : is_running s = true) :
    start_recording_session launch s = (true, s) := by
  simp [start_recording_session, h]

/-- C3 (witness): the amended statement on the concrete running bridge, with
a launch environment that would even fail, showing nothing is attempted. -/
theorem c3_amended_witness :
    is_running bridgeRunning = true ∧
    start_recording_session none bridgeRunning = (true, bridgeRunning) :=
  ⟨by decide, c3_amended_thm none bridgeRunning (by decide)⟩

/-- C4: with the configured retry policy (3 max attempts, 10 s base delay),
two retriable failures followed by a success return the (schema-repaired)
success result after sleeping exactly base*1 then base*2; and max_retries
consecutive retriable failures return the `valid = false` fallback after
exactly max_retries attempts, with no further attempt. -/
theorem c4_retry_backoff (o1 o2 : Nat → GeminiOutcome) (cmd : String)
    (vis : List String) (raw : RawResult) (hc : cmd ≠ "")
    (ha1 : o1 1 = GeminiOutcome.retriable) (ha2 : o1 2 = GeminiOutcome.retriable)
    (ha3 : o1 3 = GeminiOutcome.ok raw)
    (hb1 : o2 1 = GeminiOutcome.retriable) (hb2 : o2 2 = GeminiOutcome.retriable)
    (hb3 : o2 3 = GeminiOutcome.retriable) :
    process_command true o1 cmd vis =
      ⟨applyDefaults raw,
       [Config.GEMINI_RETRY_DELAY * 1, Config.GEMINI_RETRY_DELAY * 2], 3⟩ ∧
    process_command true o2 cmd vis =
      ⟨fallback_invalid,
       [Config.GEMINI_RETRY_DELAY * 1, Config.GEMINI_RETRY_DELAY * 2],
       Config.GEMINI_MAX_RETRIES⟩ ∧
    fallback_invalid.valid = false := by
  unfold process_command Config.GEMINI_MAX_RETRIES Config.GEMINI_RETRY_DELAY
  refine ⟨?_, ?_, rfl⟩
  · simp [attemptLoop, ha1, ha2, ha3, hc]
  · simp [attemptLoop, hb1, hb2, hb3, hc]

/-- C4 (witness): the retry/backoff behaviour at concrete oracles — two
rate-limit failures then a success, and three consecutive rate-limit
failures. -/
theorem c4_retry_backoff_witness :
    ("grab the nut" ≠ "") ∧
    ((fun n => if n ≤ 2 then GeminiOutcome.retriable
        else GeminiOutcome.ok ⟨some true, some (some "nut"), some "Target acquired"⟩) 1 =
      GeminiOutcome.retriable) ∧
    (process_command true
        (fun n => if n ≤ 2 then GeminiOutcome.retriable
          else GeminiOutcome.ok ⟨some true, some (some "nut"), some "Target acquired"⟩)
        "grab the nut" ["nut"] =
      ⟨applyDefaults ⟨some true, some (some "nut"), some "Target acquired"⟩,
       [Config.GEMINI_RETRY_DELAY * 1, Config.GEMINI_RETRY_DELAY * 2], 3⟩ ∧
     process_command true (fun _ => GeminiOutcome.retriable) "grab the nut" ["nut"] =
      ⟨fallback_invalid,
       [Config.GEMINI_RETRY_DELAY * 1, Config.GEMINI_RETRY_DELAY * 2],
       Config.GEMINI_MAX_RETRIES⟩ ∧
     fallback_invalid.valid = false) :=
  ⟨by decide, by decide,
    c4_retry_backoff
      (fun n => if n ≤ 2 then GeminiOutcome.retriable
        else GeminiOutcome.ok ⟨some true, some (some "nut"), some "Target acquired"⟩)
      (fun _ => GeminiOutcome.retriable) "grab the nut" ["nut"]
      ⟨some true, some (some "nut"), some "Target acquired"⟩
      (by decide) (by decide) (by decide) (by decide) (by decide) (by decide) (by decide)⟩

/-- C5 (counterexample): the fallback decision's reason string is
"Cannot evaluate." (capitalised, with a period), not the claimed
"cannot evaluate". -/
theorem c5_counterexample :
    (process_command true (fun _ => GeminiOutcome.fatal) "grab the nut"
        ["nut"]).decision.reason = "Cannot evaluate." ∧
    ¬ ((process_command true (fun _ => GeminiOutcome.fatal) "grab the nut"
        ["nut"]).decision.reason = "cannot evaluate") := by
  exact ⟨rfl, by decide⟩

/-- C5 (amended): a non-retriable first-attempt failure (non-JSON response or
any exception other than rate-limit/unavailable) terminates the evaluation
immediately — exactly one attempt, no backoff sleep — returning the fallback
decision with valid = false, no target, and reason "Cannot evaluate.". -/
theorem c5_amended_thm (oracle : Nat → GeminiOutcome) (cmd : String)
    (vis : List String) (hc : cmd ≠ "")
    (h1 : oracle 1 = GeminiOutcome.nonJson ∨ oracle 1 = GeminiOutcome.fatal) :
    process_command true oracle cmd vis = ⟨fallback_invalid, [], 1⟩ ∧
    fallback_invalid =
      { valid := false, target := none, reason := "Cannot evaluate." } := by
  refine ⟨?_, rfl⟩
  unfold process_command Config.GEMINI_MAX_RETRIES Config.GEMINI_RETRY_DELAY
  rw [if_neg hc]
  rcases h1 with h1 | h1 <;> simp [attemptLoop, h1]

/-- C5 (witness): the amended statement at a concrete non-JSON first
attempt. -/
theorem c5_amended_witness :
    ("grab the nut" ≠ "") ∧
    (process_command true (fun _ => GeminiOutcome.nonJson) "grab the nut" ["nut"] =
        ⟨fallback_invalid, [], 1⟩ ∧
      fallback_invalid =
        { valid := false, target := none, reason := "Cannot evaluate." }) :=
  ⟨by decide,
    c5_amended_thm (fun _ => GeminiOutcome.nonJson) "grab the nut" ["nut"]
      (by decide) (Or.inl rfl)⟩

/-- C6 (counterexample): on an empty transcript the returned decision's
reason field is "No audio/text detected.", not the claimed
"no command detected" (that phrase is only the spoken `tts_result` text). -/
theorem c6_counterexample :
    (trigger_voice_listen true true [] (fun _ _ => ⟨false, none, "r"⟩) ""
        sysIdleLive).result.decision.reason = "No audio/text detected." ∧
    ¬ ((trigger_voice_listen true true [] (fun _ _ => ⟨false, none, "r"⟩) ""
        sysIdleLive).result.decision.reason = "no command detected") :=
  ⟨rfl, by decide⟩

/-- C6 (amended): an empty transcript short-circuits the turn: the route
returns command = null, the decision
`{valid: false, target: null, reason: "No audio/text detected."}`, speaks
"No command detected.", makes zero evaluator calls, performs no dispatch
event and leaves the system state unchanged. -/
theorem c6_amended_thm (fWk eOk : Bool) (vis : List String)
    (evaluate : String → List String → Decision) (s : SystemState) :
    trigger_voice_listen fWk eOk vis evaluate "" s =
      { result := { command := none,
                    decision := { valid := false, target := none,
                                  reason := "No audio/text detected." },
                    ttsResult := "No command detected." },
        state := s, evalCalls := 0, trace := [] } := rfl

/-- C7: (a) when the `/api/lerobot/run` dispatch fails at the trigger-write
step after pausing the camera, the camera is resumed (paused = false) in the
state the route returns with; (b) for a non-empty transcript the voice
route's returned decision is exactly the evaluator's decision, whatever the
dispatch does — a dispatch failure never overwrites it. -/
theorem c7_dispatch_failure_resume (s : SystemState) (fWk eOk : Bool)
    (vis : List String) (evaluate : String → List String → Decision)
    (cmd : String) (h : cmd ≠ "") :
    ((lerobot_run false s).2.cam.is_paused = false) ∧
    ((trigger_voice_listen fWk eOk vis evaluate cmd s).result.decision =
      evaluate cmd vis) := by
  constructor
  · exact resume_paused _
  · unfold trigger_voice_listen
    rw [if_neg h]

/-- C7 (witness): the compensating resume and decision preservation at a
concrete paused-capable state and a concrete valid evaluation. -/
theorem c7_dispatch_failure_resume_witness :
    ("pick the nut" ≠ "") ∧
    (((lerobot_run false sysRunningOpen).2.cam.is_paused = false) ∧
      ((trigger_voice_listen true true ["nut"]
          (fun _ _ => ⟨true, some "nut", "Target acquired: nut"⟩)
          "pick the nut" sysRunningOpen).result.decision =
        (fun (_ : String) (_ : List String) =>
          Decision.mk true (some "nut") "Target acquired: nut") "pick the nut" ["nut"])) :=
  ⟨by decide,
    c7_dispatch_failure_resume sysRunningOpen true true ["nut"]
      (fun _ _ => ⟨true, some "nut", "Target acquired: nut"⟩) "pick the nut"
      (by decide)⟩

/-- C8: for every sequence of pause/resume calls from the initial state the
observable paused flag equals the fold of the sequence (true after a
trailing pause, false after a trailing resume, initially false), every call
returns success, and a second consecutive identical call is a successful
no-op leaving the state unchanged. -/
theorem c8_pause_resume_fold (cs : List CamCall) (c : CamCall) (s : CVVideoState) :
    ((applyCalls cs initCVVideo).paused = foldPaused cs false) ∧
    ((applyCall c s).1 = true) ∧
    (applyCall c (applyCall c s).2 = (true, (applyCall c s).2)) :=
  ⟨applyCalls_paused cs initCVVideo, applyCall_fst c s, applyCall_idem c s⟩

/-- C9 (code bug, evaluated): from a running session, when graceful
termination times out and the escalation `kill()` itself raises, the
exception escapes `stop_session` before `self._process = None` runs: the
call ends in an error with the bridge state unchanged, still reporting
`is_running() = true` — not Idle as the claim (and the spec's own intent)
requires. -/
theorem c9_kill_raises_not_idle :
    is_running bridgeRunning = true ∧
    stop_session StopBehavior.timeoutKillRaises bridgeRunning =
      Except.error ("kill raised", bridgeRunning) :=
  ⟨rfl, rfl⟩

/-- C10: calling `run_lerobot_commands` with an absent (`None`) or empty
target is a complete no-op: no last-target recording, no command-file write,
no confirmation sent, no bridge or camera state change, and an empty event
trace. -/
theorem c10_empty_target_noop (fWk eOk : Bool) (s : SystemState) :
    run_lerobot_commands fWk eOk none s = (s, []) ∧
    run_lerobot_commands fWk eOk (some "") s = (s, []) :=
  ⟨rfl, rfl⟩

end Scrapple
